import Mathlib

/-!
Shallow embedding of `litesimple.py`, a small ORM micro-library for sqlite3.

The embedding follows the source file closely:
* `PyValue` models the dynamically-typed Python values that flow through the
  library (ints, `Decimal`s, strings, `datetime.datetime` objects and `None`).
* `Field` and its four constructors (`FieldInteger`, `FieldDecimal`,
  `FieldText`, `FieldDateTime`) model the descriptor classes; the dynamic
  method dispatch of the Python class hierarchy is modelled by a `kind` tag.
* `modelMeta` models `ModelMeta.__new__`, `generate_query` models
  `Model._generate_query`, and so on, one Lean definition per Python method.
* Fallible Python code (raised exceptions) is modelled with `Except PyErr`.
* The ambient clock (`datetime.datetime.now()`) is modelled by threading an
  explicit `now : PyDateTime` argument into the functions that may read it.
* Python `dict`s are modelled as association lists; the source only relies on
  iterating one unchanged dict consistently, which the list order provides.
-/

namespace Litesimple

/-- Errors raised by the Python code (`TypeError`, `ValueError`, a failed
dictionary lookup `KeyError`, a missing attribute, a bad index). -/
inductive PyErr : Type where
  | typeError (msg : String)
  | valueError (msg : String)
  | keyError (key : String)
  | attributeError (name : String)
  | indexError
  deriving Repr, DecidableEq

/-- A `datetime.datetime` value: year, month, day, hour, minute, second and
microsecond.  Python's `datetime` constructor enforces the range invariants
captured below by `PyDateTime.valid`. -/
structure PyDateTime : Type where
  year : Nat
  month : Nat
  day : Nat
  hour : Nat
  minute : Nat
  second : Nat
  microsecond : Nat
  deriving Repr, DecidableEq

/-- Leap-year rule used by the `datetime` module. -/
def isLeapYear (y : Nat) : Bool :=
  (y % 4 == 0 && y % 100 != 0) || y % 400 == 0

/-- Number of days in a month, as enforced by the `datetime` constructor. -/
def daysInMonth (y m : Nat) : Nat :=
  if m = 2 then (if isLeapYear y then 29 else 28)
  else if m = 4 || m = 6 || m = 9 || m = 11 then 30
  else 31

/-- The range invariants of the field values of a Python `datetime` object
(`MINYEAR = 1`, `MAXYEAR = 9999`, and the usual calendar bounds). -/
def validParts (y mo d h mi s us : Nat) : Bool :=
  1 ≤ y && y ≤ 9999 && 1 ≤ mo && mo ≤ 12 && 1 ≤ d && d ≤ daysInMonth y mo &&
    h ≤ 23 && mi ≤ 59 && s ≤ 59 && us ≤ 999999

/-- A `PyDateTime` satisfying the invariants every real `datetime.datetime`
object satisfies by construction. -/
def PyDateTime.valid (d : PyDateTime) : Bool :=
  validParts d.year d.month d.day d.hour d.minute d.second d.microsecond

/-- `datetime.min` = `datetime(1, 1, 1, 0, 0, 0, 0)`, the default value of a
`FieldDateTime`. -/
def dtMin : PyDateTime := ⟨1, 1, 1, 0, 0, 0, 0⟩

/-- A `decimal.Decimal` value, modelled as `mantissa * 10 ^ exponent`. -/
structure PyDecimal : Type where
  mantissa : Int
  exponent : Int
  deriving Repr, DecidableEq

/-- The dynamically-typed Python values handled by the library. -/
inductive PyValue : Type where
  | int (n : Int)
  | dec (d : PyDecimal)
  | str (s : String)
  | dt (d : PyDateTime)
  | none
  deriving Repr, DecidableEq

/-- Validity of a `PyValue`: a datetime payload must satisfy the invariants a
real `datetime.datetime` object has by construction. -/
def PyValue.valid : PyValue → Bool
  | .dt d => d.valid
  | _ => true

/-! ### The fixed-width timestamp format `"%Y-%m-%d %H:%M:%S.%f"`

`FieldDateTime.to_db_format` renders a datetime with
`datetime.strftime(value, "%Y-%m-%d %H:%M:%S.%f")` and
`FieldDateTime.from_db_format` parses it back with `strptime` and the same
format string.  The source is Python 2 (`__metaclass__`,
`dict(items() + items())`), whose `datetime.strftime` raises `ValueError`
for any year before 1900; that error path is modelled by
`strftimeDateTime` below.  On the years `strftime` accepts (1900–9999)
every directive renders zero-padded at its fixed width, so the rendering is
the 26-character string built by `formatDateTime`. -/

/-- The character for a single decimal digit. -/
def digitChar (n : Nat) : Char := Char.ofNat (48 + n)

/-- Zero-padded two-digit rendering (for values below 100 this is `%02d`). -/
def pad2 (n : Nat) : List Char := [digitChar (n / 10 % 10), digitChar (n % 10)]

/-- Zero-padded four-digit rendering (for values below 10000 this is `%04d`,
the rendering of `%Y` on a `datetime` year). -/
def pad4 (n : Nat) : List Char :=
  [digitChar (n / 1000 % 10), digitChar (n / 100 % 10),
   digitChar (n / 10 % 10), digitChar (n % 10)]

/-- Zero-padded six-digit rendering (`%06d`, the rendering of `%f`). -/
def pad6 (n : Nat) : List Char :=
  [digitChar (n / 100000 % 10), digitChar (n / 10000 % 10),
   digitChar (n / 1000 % 10), digitChar (n / 100 % 10),
   digitChar (n / 10 % 10), digitChar (n % 10)]

/-- The characters of `strftime(value, "%Y-%m-%d %H:%M:%S.%f")`. -/
def formatDateTimeChars (d : PyDateTime) : List Char :=
  pad4 d.year ++ '-' :: (pad2 d.month ++ '-' :: (pad2 d.day ++
    ' ' :: (pad2 d.hour ++ ':' :: (pad2 d.minute ++ ':' :: (pad2 d.second ++
      '.' :: pad6 d.microsecond)))))

/-- The string `strftime(value, "%Y-%m-%d %H:%M:%S.%f")` produces on the
years it accepts (≥ 1900, where `%Y` is always four digits). -/
def formatDateTime (d : PyDateTime) : String :=
  String.mk (formatDateTimeChars d)

/-- Python 2 `datetime.strftime(value, "%Y-%m-%d %H:%M:%S.%f")`: raises
`ValueError` for any year before 1900 (a restriction of the Python 2
`strftime` methods — it hits even the `FieldDateTime` default
`datetime.min`); otherwise the fixed-width rendering. -/
def strftimeDateTime (d : PyDateTime) : Except PyErr String :=
  if d.year < 1900 then
    .error (.valueError ("year=" ++ toString d.year ++
      " is before 1900; the datetime strftime() methods require year" ++
      " >= 1900"))
  else .ok (formatDateTime d)

/-- Value of a decimal digit character, if it is one. -/
def digitVal? (c : Char) : Option Nat :=
  if 48 ≤ c.toNat && c.toNat ≤ 57 then some (c.toNat - 48) else none

/-- Read exactly `w` decimal digits, accumulating their value. -/
def readDigits : Nat → Nat → List Char → Option (Nat × List Char)
  | 0, acc, cs => some (acc, cs)
  | w + 1, acc, c :: cs =>
    match digitVal? c with
    | some d => readDigits w (acc * 10 + d) cs
    | none => Option.none
  | _ + 1, _, [] => Option.none

/-- Consume one expected literal character. -/
def expectChar (c : Char) : List Char → Option (List Char)
  | c' :: cs => if c' = c then some cs else Option.none
  | [] => Option.none

/-- The parser of `strptime(value, "%Y-%m-%d %H:%M:%S.%f")` on the characters
of the stored string: fixed-width numeric directives separated by the literal
characters of the format, a full match required, and the range checks the
`_strptime` regular expressions and the `datetime` constructor perform. -/
def parseDT? (cs : List Char) : Option PyDateTime :=
  match readDigits 4 0 cs with
  | Option.none => Option.none
  | some (y, cs) =>
  match expectChar '-' cs with
  | Option.none => Option.none
  | some cs =>
  match readDigits 2 0 cs with
  | Option.none => Option.none
  | some (mo, cs) =>
  match expectChar '-' cs with
  | Option.none => Option.none
  | some cs =>
  match readDigits 2 0 cs with
  | Option.none => Option.none
  | some (d, cs) =>
  match expectChar ' ' cs with
  | Option.none => Option.none
  | some cs =>
  match readDigits 2 0 cs with
  | Option.none => Option.none
  | some (h, cs) =>
  match expectChar ':' cs with
  | Option.none => Option.none
  | some cs =>
  match readDigits 2 0 cs with
  | Option.none => Option.none
  | some (mi, cs) =>
  match expectChar ':' cs with
  | Option.none => Option.none
  | some cs =>
  match readDigits 2 0 cs with
  | Option.none => Option.none
  | some (s, cs) =>
  match expectChar '.' cs with
  | Option.none => Option.none
  | some cs =>
  match readDigits 6 0 cs with
  | Option.none => Option.none
  | some (us, cs) =>
  if cs = [] then
    if validParts y mo d h mi s us then some ⟨y, mo, d, h, mi, s, us⟩
    else Option.none
  else Option.none

/-- `datetime.strptime(value, "%Y-%m-%d %H:%M:%S.%f")`: parse or raise a
`ValueError`. -/
def parseDateTime (s : String) : Except PyErr PyDateTime :=
  match parseDT? s.data with
  | some d => .ok d
  | Option.none =>
    .error (.valueError ("time data '" ++ s ++
      "' does not match format '%Y-%m-%d %H:%M:%S.%f'"))

/-! ### Python value rendering and coercions used by the field classes -/

/-- `str(datetime)` (the rendering `"%s" % value` uses): ISO format with a
space separator, omitting the microsecond part when it is zero. -/
def strOfDateTime (d : PyDateTime) : String :=
  String.mk (pad4 d.year ++ '-' :: (pad2 d.month ++ '-' :: (pad2 d.day ++
    ' ' :: (pad2 d.hour ++ ':' :: (pad2 d.minute ++ ':' :: pad2 d.second)))) ++
    (if d.microsecond = 0 then [] else '.' :: pad6 d.microsecond))

/-- `str(Decimal)`.  Renders `mantissa * 10 ^ exponent`; positive exponents
use the `E+n` notation, negative ones insert a decimal point.  (The
scientific-notation cutoff Python applies for very small adjusted exponents is
not reproduced; no claim depends on the rendering of a `Decimal`.) -/
def strOfDecimal (d : PyDecimal) : String :=
  if d.exponent = 0 then toString d.mantissa
  else if 0 < d.exponent then
    toString d.mantissa ++ "E+" ++ toString d.exponent
  else
    let digits := toString d.mantissa.natAbs
    let frac := (d.exponent.natAbs - digits.length)
    let digits := String.mk (List.replicate frac '0') ++ digits
    let intLen := digits.length - d.exponent.natAbs
    (if d.mantissa < 0 then "-" else "") ++
      (if intLen = 0 then "0" else String.mk (digits.data.take intLen)) ++
      "." ++ String.mk (digits.data.drop intLen)

/-- `"%s" % value` / `str(value)`. -/
def pyStr : PyValue → String
  | .int n => toString n
  | .dec d => strOfDecimal d
  | .str s => s
  | .dt d => strOfDateTime d
  | .none => "None"

/-- Parse a non-empty run of decimal digits. -/
def digitsToNat? (cs : List Char) : Option Nat :=
  match cs with
  | [] => Option.none
  | _ =>
    match readDigits cs.length 0 cs with
    | some (n, []) => some n
    | _ => Option.none

/-- `int(s)` on a string: optional sign followed by decimal digits, otherwise
a `ValueError`.  (Surrounding whitespace, underscores and non-decimal bases
are not reproduced; no claim depends on them.) -/
def intOfString? (s : String) : Option Int :=
  match s.data with
  | '-' :: cs => (digitsToNat? cs).map (fun n => -(n : Int))
  | '+' :: cs => (digitsToNat? cs).map (fun n => (n : Int))
  | cs => (digitsToNat? cs).map (fun n => (n : Int))

/-- `Decimal(s)` on a string: optional sign, integer digits and an optional
fractional part, otherwise an `InvalidOperation`/`TypeError`.  (Exponent
forms, `Infinity` and `NaN` are not reproduced; no claim depends on them.) -/
def decOfString? (s : String) : Option PyDecimal :=
  let core : List Char → Option PyDecimal := fun cs =>
    match cs.span (fun c => (digitVal? c).isSome) with
    | (intPart, rest) =>
      match rest with
      | [] => (digitsToNat? intPart).map (fun n => ⟨(n : Int), 0⟩)
      | '.' :: fracPart =>
        match digitsToNat? intPart, digitsToNat? fracPart with
        | some i, some f =>
          some ⟨(i * 10 ^ fracPart.length + f : Int), -(fracPart.length : Int)⟩
        | _, _ => Option.none
      | _ => Option.none
  match s.data with
  | '-' :: cs => (core cs).map (fun d => ⟨-d.mantissa, d.exponent⟩)
  | '+' :: cs => core cs
  | cs => core cs

/-- `int(Decimal)`: truncation toward zero. -/
def truncDecimal (d : PyDecimal) : Int :=
  if 0 ≤ d.exponent then d.mantissa * 10 ^ d.exponent.natAbs
  else d.mantissa.tdiv (10 ^ d.exponent.natAbs)

/-! ### The `Field` descriptor classes -/

/-- Which descriptor class a `Field` record was built by; stands in for the
dynamic dispatch of the overridden `validate` / `to_db_format` /
`from_db_format` methods. -/
inductive FieldKind : Type where
  | base
  | integer
  | decimal
  | text
  | datetime
  deriving Repr, DecidableEq

/-- The state of a `Field` descriptor: the attributes set by `Field.__init__`
(`column_name`, `is_key`, `is_unique`, `allow_null`, `check`, `default`,
`attr`), the subclass-fixed `column_type`, the `FieldDateTime`-specific
`auto_now` / `auto_now_add` flags, and the dispatch tag. -/
structure Field : Type where
  kind : FieldKind
  column_type : String
  column_name : Option String
  is_key : Bool
  is_unique : Bool
  allow_null : Bool
  check : Bool
  default : PyValue
  attr : Option String
  auto_now : Bool
  auto_now_add : Bool
  deriving Repr, DecidableEq

/-- `FieldInteger(column_name, is_key, is_unique, allow_null, check, default)`:
`column_type = "INTEGER"`, and the default defaults to `0` when the `default`
keyword argument is absent (`dflt = Option.none`). -/
def FieldInteger (cn : Option String) (key uniq nul chk : Bool)
    (dflt : Option PyValue) : Field :=
  { kind := .integer, column_type := "INTEGER", column_name := cn,
    is_key := key, is_unique := uniq, allow_null := nul, check := chk,
    default := dflt.getD (.int 0), attr := Option.none,
    auto_now := false, auto_now_add := false }

/-- `FieldDecimal(...)`: `column_type = "NUMERIC"`, default `Decimal(0)` when
the `default` keyword argument is absent. -/
def FieldDecimal (cn : Option String) (key uniq nul chk : Bool)
    (dflt : Option PyValue) : Field :=
  { kind := .decimal, column_type := "NUMERIC", column_name := cn,
    is_key := key, is_unique := uniq, allow_null := nul, check := chk,
    default := dflt.getD (.dec ⟨0, 0⟩), attr := Option.none,
    auto_now := false, auto_now_add := false }

/-- `FieldText(...)`: `column_type = "TEXT"`; when the `default` keyword is
absent, the `allow_null` keyword is present (`nul = some _`) and is `False`,
the default becomes `''`.  `nul = Option.none` models an absent `allow_null`
keyword (which leaves the base-class default `True`). -/
def FieldText (cn : Option String) (key uniq : Bool) (nul : Option Bool)
    (chk : Bool) (dflt : Option PyValue) : Field :=
  let dflt := if dflt.isNone && nul == some false then some (.str "") else dflt
  { kind := .text, column_type := "TEXT", column_name := cn,
    is_key := key, is_unique := uniq, allow_null := nul.getD true,
    check := chk, default := dflt.getD .none, attr := Option.none,
    auto_now := false, auto_now_add := false }

/-- `FieldDateTime(auto_now, auto_now_add, ...)`: `column_type = "TEXT"`,
`allow_null` forced to `False`, default `datetime.min` when the `default`
keyword argument is absent. -/
def FieldDateTime (an aadd : Bool) (cn : Option String) (key uniq chk : Bool)
    (dflt : Option PyValue) : Field :=
  { kind := .datetime, column_type := "TEXT", column_name := cn,
    is_key := key, is_unique := uniq, allow_null := false, check := chk,
    default := dflt.getD (.dt dtMin), attr := Option.none,
    auto_now := an, auto_now_add := aadd }

/-- The overridden `validate` methods:
* base `Field.validate` returns the value unchanged;
* `FieldInteger.validate` is `int(value)`;
* `FieldDecimal.validate` is `Decimal(value)`;
* `FieldText.validate` is `"%s" % value`;
* `FieldDateTime.validate` accepts a `datetime` unchanged and raises a
  `TypeError` otherwise. -/
def Field.validate (f : Field) (v : PyValue) : Except PyErr PyValue :=
  match f.kind with
  | .base => .ok v
  | .integer =>
    match v with
    | .int n => .ok (.int n)
    | .dec d => .ok (.int (truncDecimal d))
    | .str s =>
      match intOfString? s with
      | some n => .ok (.int n)
      | Option.none =>
        .error (.valueError ("invalid literal for int(): " ++ s))
    | _ => .error (.typeError "int() argument must be a string or a number")
  | .decimal =>
    match v with
    | .dec d => .ok (.dec d)
    | .int n => .ok (.dec ⟨n, 0⟩)
    | .str s =>
      match decOfString? s with
      | some d => .ok (.dec d)
      | Option.none => .error (.valueError "Invalid literal for Decimal")
    | _ => .error (.typeError "Cannot convert value to Decimal")
  | .text => .ok (.str (pyStr v))
  | .datetime =>
    match v with
    | .dt d => .ok (.dt d)
    | _ => .error (.typeError ("Attempted to assign a non datetime value" ++
        " to a datetime field."))

/-- The overridden `to_db_format` methods.  The base class (and the integer,
decimal and text subclasses, which do not override it) returns the value
unchanged.  `FieldDateTime.to_db_format` first overrides the value with the
current time `now` when `is_query` is set and either `auto_now` is set or
`auto_now_add` is set on a first save, then renders with
`strftime("%Y-%m-%d %H:%M:%S.%f")` — which, under Python 2, raises
`ValueError` when the formatted datetime's year is before 1900. -/
def Field.to_db_format (f : Field) (now : PyDateTime) (v : PyValue)
    (first_time is_query : Bool) : Except PyErr PyValue :=
  match f.kind with
  | .datetime =>
    let v := if is_query && (f.auto_now || (first_time && f.auto_now_add))
      then .dt now else v
    match v with
    | .dt d =>
      match strftimeDateTime d with
      | .error e => .error e
      | .ok s => .ok (.str s)
    | _ => .error (.typeError "strftime requires a datetime value")
  | _ => .ok v

/-- The overridden `from_db_format` methods.  The base class (and the integer,
decimal and text subclasses) returns the value unchanged;
`FieldDateTime.from_db_format` parses the stored string back with
`strptime("%Y-%m-%d %H:%M:%S.%f")`. -/
def Field.from_db_format (f : Field) (v : PyValue) : Except PyErr PyValue :=
  match f.kind with
  | .datetime =>
    match v with
    | .str s => (parseDateTime s).map .dt
    | _ => .error (.typeError "strptime requires a string value")
  | _ => .ok v

/-- `Field._get_column_statement`: `"<column_name> <column_type>"` followed by
the `if/elif` chain `PRIMARY KEY` / `NOT NULL` / `UNIQUE` / `CHECK` /
`DEFAULT <literal>`.  In the `DEFAULT` branch the source runs
`statement += default` when the converted default `isinstance(default,
Number)` — concatenating a `str` with a number, which raises a `TypeError`;
a `None` default renders as `"None"` via `"%s" % default`, anything else as a
double-quoted `"%s"` rendering. -/
def Field.get_column_statement (f : Field) : Except PyErr String :=
  let statement := (match f.column_name with
    | some c => c
    | Option.none => "None") ++ " " ++ f.column_type
  if f.is_key then .ok (statement ++ " PRIMARY KEY")
  else if !f.allow_null then .ok (statement ++ " NOT NULL")
  else if f.is_unique then .ok (statement ++ " UNIQUE")
  else if f.check then .ok (statement ++ " CHECK")
  else
    -- `to_db_format(self.default, False, False)`; with `is_query = False`
    -- the clock is never read, so the `now` argument is immaterial.
    match f.to_db_format dtMin f.default false false with
    | .error e => .error e
    | .ok dv =>
      match dv with
      | .int _ =>
        .error (.typeError "cannot concatenate 'str' and 'int' objects")
      | .dec _ =>
        .error (.typeError "cannot concatenate 'str' and 'Decimal' objects")
      | .none => .ok (statement ++ " DEFAULT None")
      | dv => .ok (statement ++ " DEFAULT \"" ++ pyStr dv ++ "\"")

/-! ### The metaclass `ModelMeta` and the model classes -/

/-- `d[k] = v` on an association list standing in for a Python `dict`: the
value of an existing key is replaced in place, a new key is appended. -/
def assocSet {α β : Type} [BEq α] : List (α × β) → α → β → List (α × β)
  | [], k, v => [(k, v)]
  | (k', v') :: t, k, v =>
    if k' == k then (k, v) :: t else (k', v') :: assocSet t k v

/-- The class-level state `ModelMeta.__new__` installs on a model class:
`_columns`, `_tablename`, `_primary_key`, and the class dictionary entries
that are `Field` descriptors (keyed by attribute name, in declaration
order). -/
structure ModelClass : Type where
  columns : List String
  tablename : String
  primary_key : Option String
  fields : List (String × Field)
  deriving Repr, DecidableEq

/-- One step of the field-scanning loop in `ModelMeta.__new__`: bind the
attribute name, default the column name, reject a second primary key, record
the primary-key column, and append the column name. -/
def modelMetaStep (cls : ModelClass) (found_primary : Bool)
    (attr : String) (f : Field) : Except PyErr (ModelClass × Bool) :=
  let f := { f with attr := some attr,
                    column_name := some (f.column_name.getD attr) }
  if f.is_key then
    if found_primary then
      .error (.typeError ("Expected a single primary key Field" ++
        " but found two."))
    else
      .ok ({ cls with primary_key := f.column_name,
                      columns := cls.columns ++ [f.column_name.getD attr],
                      fields := cls.fields ++ [(attr, f)] }, true)
  else
    .ok ({ cls with columns := cls.columns ++ [f.column_name.getD attr],
                    fields := cls.fields ++ [(attr, f)] }, found_primary)

/-- The field-scanning loop of `ModelMeta.__new__` over the declared
attributes. -/
def modelMetaLoop : List (String × Field) → ModelClass → Bool →
    Except PyErr (ModelClass × Bool)
  | [], cls, found => .ok (cls, found)
  | (attr, f) :: rest, cls, found =>
    match modelMetaStep cls found attr f with
    | .error e => .error e
    | .ok (cls, found) => modelMetaLoop rest cls found

/-- `ModelMeta.__new__(cls, name, bases, dct)`: scan the declared `Field`
attributes, and when no primary key was declared, prepend the implicit
`"_rowid_"` column, record it as the primary key, and install a fresh
`FieldInteger(is_key=True)` under the class-dictionary key `"_rowid_"`. -/
def modelMeta (name : String) (decls : List (String × Field)) :
    Except PyErr ModelClass :=
  match modelMetaLoop decls
      { columns := [], tablename := name, primary_key := Option.none,
        fields := [] } false with
  | .error e => .error e
  | .ok (cls, _) =>
    if cls.primary_key = Option.none then
      .ok { cls with
        columns := "_rowid_" :: cls.columns,
        primary_key := some "_rowid_",
        fields := assocSet cls.fields "_rowid_"
          (FieldInteger Option.none true false true false Option.none) }
    else
      .ok cls

/-! ### Model instances and attribute access

A `Field` descriptor stores its value in the instance `__dict__` under the
key `self.attr` (an `Option String`: the synthesized `"_rowid_"` field keeps
`attr = None`, so its value lands under the key `None`).  A plain attribute
write lands under the attribute name itself. -/

/-- The per-instance state: the instance `__dict__` and the `_saved` flag. -/
structure Instance : Type where
  dict : List (Option String × PyValue)
  saved : Bool
  deriving Repr, DecidableEq

/-- `getattr(instance, name)`: a `Field` descriptor found under `name` in the
class dictionary reads the instance `__dict__` at `self.attr`; otherwise the
instance `__dict__` is read at `name` directly. -/
def pygetattr (cls : ModelClass) (inst : Instance) (name : String) :
    Except PyErr PyValue :=
  match cls.fields.lookup name with
  | some f =>
    match inst.dict.lookup f.attr with
    | some v => .ok v
    | Option.none => .error (.keyError (f.attr.getD "None"))
  | Option.none =>
    match inst.dict.lookup (some name) with
    | some v => .ok v
    | Option.none => .error (.attributeError name)

/-- `setattr(instance, name, value)`: a `Field` descriptor found under `name`
validates the value and stores it at `self.attr`; otherwise the value is
stored at `name` directly, unvalidated. -/
def pysetattr (cls : ModelClass) (inst : Instance) (name : String)
    (v : PyValue) : Except PyErr Instance :=
  match cls.fields.lookup name with
  | some f =>
    match f.validate v with
    | .error e => .error e
    | .ok v' => .ok { inst with dict := assocSet inst.dict f.attr v' }
  | Option.none => .ok { inst with dict := assocSet inst.dict (some name) v }

/-- `Model.__init__(**kwargs)`: every `Field` attribute is assigned from the
keyword arguments when present, else from the field's default, through
`setattr` (hence through `validate`). -/
def model_init (cls : ModelClass) (kwargs : List (String × PyValue)) :
    Except PyErr Instance :=
  cls.fields.foldlM
    (fun inst p =>
      pysetattr cls inst p.1 ((kwargs.lookup p.1).getD p.2.default))
    { dict := [], saved := false }

/-! ### `Model._generate_query` -/

/-- `query.upper()` (character-wise ASCII uppercasing, as `str.upper`
performs on the operation tokens used here). -/
def pyUpper (s : String) : String := String.mk (s.data.map Char.toUpper)

/-- The message of the unknown-column `TypeError` raised by
`Model._generate_query`. -/
def unknownColumnMsg (attr : String) (cols : List String) : String :=
  "Found unknown column " ++ attr ++ ". Model only supports columns " ++
    String.intercalate ", " cols ++ "."

/-- `Model._generate_query(query, where, data)`.  Returns the SQL text and the
ordered parameter list the source would hand to `cursor.execute`.

The validation loop iterates `dict(where.items() + data.items())`; merging
into a dict only removes later duplicate keys, so the first key failing the
column check is the first offender of the concatenated key lists.  After
validation the sentinel entry `where["1"] = 1` is added, and the `WHERE`
fragment and the parameter list iterate that same dict consistently. -/
def generate_query (cls : ModelClass) (query : String)
    (whr data : List (String × PyValue)) :
    Except PyErr (String × List PyValue) :=
  match (whr.map Prod.fst ++ data.map Prod.fst).find?
      (fun k => !(cls.columns.contains k)) with
  | some k => .error (.typeError (unknownColumnMsg k cls.columns))
  | Option.none =>
    let whr := assocSet whr "1" (.int 1)
    let where_query :=
      String.intercalate " AND " (whr.map (fun p => p.1 ++ " = ?"))
    let query_list := whr.map Prod.snd
    let query := pyUpper query
    if query = "SELECT" then
      .ok ("SELECT " ++ String.intercalate ", " cls.columns ++ " FROM " ++
        cls.tablename ++ " WHERE " ++ where_query, query_list)
    else if query = "UPDATE" then
      let data_query :=
        String.intercalate " AND " (data.map (fun p => p.1 ++ " = ?"))
      let query_list := data.map Prod.snd ++ query_list
      .ok ("UPDATE " ++ cls.tablename ++ " SET " ++ data_query ++
        " WHERE " ++ where_query, query_list)
    else if query = "INSERT" then
      let data_query := String.intercalate ", " (data.map Prod.fst)
      let query_list := data.map Prod.snd
      .ok ("INSERT INTO " ++ cls.tablename ++ " (" ++ data_query ++
        ") VALUES (" ++
        String.intercalate ", " (List.replicate query_list.length "?") ++ ")",
        query_list)
    else if query = "DELETE" then
      .ok ("DELETE FROM " ++ cls.tablename ++ " WHERE " ++ where_query,
        query_list)
    else
      .error (.typeError ("Requested query was of unknown type. Only " ++
        "supports SELECT, UPDATE, INSERT and DELETE but got '" ++ query ++
        "'"))

/-! ### `Model.save`, `Model.get`, `Model.filter`, hydration, DDL -/

/-- The data-gathering loop of `Model.save`: for every non-key `Field`,
`data[column_name] = to_db_format(getattr(self, attr), not self._saved,
True)`.  (After `ModelMeta` has run, every non-key field has a column name,
so the `getD` fallback on `column_name` is never taken on reachable
classes.) -/
def saveData (cls : ModelClass) (now : PyDateTime) (inst : Instance) :
    Except PyErr (List (String × PyValue)) :=
  cls.fields.foldlM
    (fun data p =>
      if p.2.is_key = false then
        match pygetattr cls inst p.1 with
        | .error e => .error e
        | .ok v =>
          match p.2.to_db_format now v (!inst.saved) true with
          | .error e => .error e
          | .ok dv => .ok (assocSet data (p.2.column_name.getD "None") dv)
      else .ok data)
    []

/-- `Model.save()`: gather the non-key data, then either UPDATE keyed on the
current primary-key value (`getattr(self, self._primary_key)`) when already
saved, or INSERT and write the engine-assigned row id back with
`setattr(self, self._primary_key, cursor.lastrowid)`.  The engine's
`lastrowid` is an input; the result carries the new instance state and the
generated SQL/parameters. -/
def save (cls : ModelClass) (now : PyDateTime) (inst : Instance)
    (lastrowid : Int) : Except PyErr (Instance × String × List PyValue) :=
  match saveData cls now inst with
  | .error e => .error e
  | .ok data =>
    if inst.saved then
      let pk := cls.primary_key.getD "None"
      match pygetattr cls inst pk with
      | .error e => .error e
      | .ok pkv =>
        match generate_query cls "UPDATE" [(pk, pkv)] data with
        | .error e => .error e
        | .ok q => .ok ({ inst with saved := true }, q)
    else
      match generate_query cls "INSERT" [] data with
      | .error e => .error e
      | .ok q =>
        match pysetattr cls inst (cls.primary_key.getD "None")
            (.int lastrowid) with
        | .error e => .error e
        | .ok inst' => .ok ({ inst' with saved := true }, q)

/-- `Model._result_to_model(result)`: `None` hydrates to `None`; a row tuple
hydrates into a fresh default instance with `_saved = True`, assigning
`from_db_format(result[i])` to every field whose `column_name` equals the
`i`-th schema column. -/
def result_to_model (cls : ModelClass) (result : Option (List PyValue)) :
    Except PyErr (Option Instance) :=
  match result with
  | Option.none => .ok Option.none
  | some row =>
    match model_init cls [] with
    | .error e => .error e
    | .ok out =>
      let out := { out with saved := true }
      match cls.columns.enum.foldlM
          (fun out (p : Nat × String) =>
            cls.fields.foldlM
              (fun out q =>
                if q.2.column_name = some p.2 then
                  match row.get? p.1 with
                  | Option.none => Except.error PyErr.indexError
                  | some raw =>
                    match q.2.from_db_format raw with
                    | .error e => Except.error e
                    | .ok v => pysetattr cls out q.1 v
                else Except.ok out)
              out)
          out with
      | .error e => .error e
      | .ok out => .ok (some out)

/-- `Model.get(id=None, **kwargs)`: an explicit `id` replaces the lookup
parameters with `{primary_key: id}`; the first fetched row (an input standing
for `cursor.fetchone()`) is hydrated, `None` when there is none. -/
def get (cls : ModelClass) (idArg : Option PyValue)
    (kwargs : List (String × PyValue)) (fetched : Option (List PyValue)) :
    Except PyErr (Option Instance) :=
  let kwargs := match idArg with
    | some i => [(cls.primary_key.getD "None", i)]
    | Option.none => kwargs
  match generate_query cls "SELECT" kwargs [] with
  | .error e => .error e
  | .ok _ => result_to_model cls fetched

/-- `Model.filter(**kwargs)`: every fetched row (an input standing for
iterating the cursor) is hydrated and appended; no match yields `[]`. -/
def filterModel (cls : ModelClass) (kwargs : List (String × PyValue))
    (rows : List (List PyValue)) : Except PyErr (List Instance) :=
  match generate_query cls "SELECT" kwargs [] with
  | .error e => .error e
  | .ok _ =>
    rows.foldlM
      (fun acc row =>
        match result_to_model cls (some row) with
        | .error e => .error e
        | .ok r => .ok (acc ++ r.toList))
      []

/-- `Model.get_create_statement()`: the explicit primary-key column first —
looked up in the class dictionary under the primary-key COLUMN name,
`cls.__dict__[cls._primary_key]`, a `KeyError` when absent — then every
`Field` whose attribute name differs from `cls._primary_key`, comma-joined
inside `CREATE TABLE <name> (...)`. -/
def get_create_statement (cls : ModelClass) : Except PyErr String :=
  let first : Except PyErr (List String) :=
    match cls.primary_key with
    | some pk =>
      if pk = "_rowid_" then .ok []
      else
        match cls.fields.lookup pk with
        | some f =>
          match f.get_column_statement with
          | .error e => .error e
          | .ok s => .ok [s]
        | Option.none => .error (.keyError pk)
    | Option.none => .ok []
  match first with
  | .error e => .error e
  | .ok first =>
    match cls.fields.foldlM
        (fun acc p =>
          if some p.1 ≠ cls.primary_key then
            match p.2.get_column_statement with
            | .error e => Except.error e
            | .ok s => Except.ok (acc ++ [s])
          else Except.ok acc)
        first with
    | .error e => .error e
    | .ok stmts =>
      .ok ("CREATE TABLE " ++ cls.tablename ++ " (" ++
        String.intercalate ", " stmts ++ ")")

/-- `from_db_format(to_db_format(value, first_time, is_query=False))`: the
storage round trip on an already-validated value, off the query path. -/
def storageRoundTrip (f : Field) (now : PyDateTime) (v : PyValue)
    (first_time : Bool) : Except PyErr PyValue :=
  match f.to_db_format now v first_time false with
  | .error e => .error e
  | .ok s => f.from_db_format s

/-- Whether a value already is of a field kind's canonical in-memory type
(`int` / `Decimal` / `str` / `datetime`). -/
def canonicalFor : FieldKind → PyValue → Bool
  | .integer, .int _ => true
  | .decimal, .dec _ => true
  | .text, .str _ => true
  | .datetime, .dt _ => true
  | _, _ => false

/-- The binding `ModelMeta.__new__` performs on one declared field: record the
attribute name and default the column name to it. -/
def boundField (p : String × Field) : String × Field :=
  (p.1, { p.2 with attr := some p.1,
                   column_name := some (p.2.column_name.getD p.1) })

/-- A model declaration with an explicit primary key whose column name is
overridden to `c`: `key = FieldInteger(column_name=c, is_key=True)` next to a
plain `txt = FieldText()`. -/
def declsOverride (c : String) : List (String × Field) :=
  [("key", FieldInteger (some c) true false true false Option.none),
   ("txt", FieldText Option.none false false Option.none false Option.none)]

/-- The model class `ModelMeta.__new__` produces for a declaration with no
`is_key` field: the synthesized `"_rowid_"` column prepended, recorded as
primary key, and a fresh unbound `FieldInteger(is_key=True)` appended to the
class dictionary. -/
def rowidClass (name : String) (decls : List (String × Field)) : ModelClass :=
  { columns := "_rowid_" :: decls.map (fun p => p.2.column_name.getD p.1),
    tablename := name,
    primary_key := some "_rowid_",
    fields := decls.map boundField ++
      [("_rowid_", FieldInteger Option.none true false true false
        Option.none)] }

/-! ## Lemmas: the timestamp round trip -/

theorem digitVal?_digitChar (k : Nat) (h : k ≤ 9) :
    digitVal? (digitChar k) = some k := by
  interval_cases k <;> decide

theorem readDigits_pad2 (n : Nat) (h : n < 100) (rest : List Char) :
    readDigits 2 0 (pad2 n ++ rest) = some (n, rest) := by
  have h1 : n / 10 % 10 ≤ 9 := by omega
  have h2 : n % 10 ≤ 9 := by omega
  simp only [pad2, List.cons_append, List.nil_append, readDigits,
    digitVal?_digitChar _ h1, digitVal?_digitChar _ h2]
  have : (0 * 10 + n / 10 % 10) * 10 + n % 10 = n := by omega
  rw [this]
  rfl

theorem readDigits_pad4 (n : Nat) (h : n < 10000) (rest : List Char) :
    readDigits 4 0 (pad4 n ++ rest) = some (n, rest) := by
  have h1 : n / 1000 % 10 ≤ 9 := by omega
  have h2 : n / 100 % 10 ≤ 9 := by omega
  have h3 : n / 10 % 10 ≤ 9 := by omega
  have h4 : n % 10 ≤ 9 := by omega
  simp only [pad4, List.cons_append, List.nil_append, readDigits,
    digitVal?_digitChar _ h1, digitVal?_digitChar _ h2,
    digitVal?_digitChar _ h3, digitVal?_digitChar _ h4]
  have : (((0 * 10 + n / 1000 % 10) * 10 + n / 100 % 10) * 10 +
      n / 10 % 10) * 10 + n % 10 = n := by omega
  rw [this]
  rfl

theorem readDigits_pad6 (n : Nat) (h : n < 1000000) (rest : List Char) :
    readDigits 6 0 (pad6 n ++ rest) = some (n, rest) := by
  have h1 : n / 100000 % 10 ≤ 9 := by omega
  have h2 : n / 10000 % 10 ≤ 9 := by omega
  have h3 : n / 1000 % 10 ≤ 9 := by omega
  have h4 : n / 100 % 10 ≤ 9 := by omega
  have h5 : n / 10 % 10 ≤ 9 := by omega
  have h6 : n % 10 ≤ 9 := by omega
  simp only [pad6, List.cons_append, List.nil_append, readDigits,
    digitVal?_digitChar _ h1, digitVal?_digitChar _ h2,
    digitVal?_digitChar _ h3, digitVal?_digitChar _ h4,
    digitVal?_digitChar _ h5, digitVal?_digitChar _ h6]
  have : (((((0 * 10 + n / 100000 % 10) * 10 + n / 10000 % 10) * 10 +
      n / 1000 % 10) * 10 + n / 100 % 10) * 10 + n / 10 % 10) * 10 +
      n % 10 = n := by omega
  rw [this]
  rfl

theorem readDigits_pad6_nil (n : Nat) (h : n < 1000000) :
    readDigits 6 0 (pad6 n) = some (n, []) := by
  have e := readDigits_pad6 n h []
  rwa [List.append_nil] at e

theorem expectChar_cons (c : Char) (rest : List Char) :
    expectChar c (c :: rest) = some rest := by
  simp [expectChar]

theorem daysInMonth_le (y m : Nat) : daysInMonth y m ≤ 31 := by
  unfold daysInMonth
  split
  · split <;> omega
  · split <;> omega

theorem parseDT?_formatDateTimeChars (d : PyDateTime) (h : d.valid = true) :
    parseDT? (formatDateTimeChars d) = some d := by
  obtain ⟨y, mo, dd, hh, mi, s, us⟩ := d
  have h' : validParts y mo dd hh mi s us = true := h
  have hb := h'
  simp only [validParts, Bool.and_eq_true, decide_eq_true_eq] at hb
  have hdays := daysInMonth_le y mo
  unfold formatDateTimeChars parseDT?
  simp only [readDigits_pad4 y (by omega), expectChar_cons,
    readDigits_pad2 mo (by omega), readDigits_pad2 dd (by omega),
    readDigits_pad2 hh (by omega), readDigits_pad2 mi (by omega),
    readDigits_pad2 s (by omega), readDigits_pad6_nil us (by omega)]
  simp [h']

theorem parseDateTime_formatDateTime (d : PyDateTime) (h : d.valid = true) :
    parseDateTime (formatDateTime d) = .ok d := by
  unfold parseDateTime formatDateTime
  rw [show (String.mk (formatDateTimeChars d)).data = formatDateTimeChars d
    from rfl]
  rw [parseDT?_formatDateTimeChars d h]

theorem formatDateTime_inj (d1 d2 : PyDateTime) (h1 : d1.valid = true)
    (h2 : d2.valid = true) :
    formatDateTime d1 = formatDateTime d2 ↔ d1 = d2 := by
  constructor
  · intro h
    have e1 := parseDateTime_formatDateTime d1 h1
    rw [h, parseDateTime_formatDateTime d2 h2] at e1
    exact (Except.ok.inj e1).symm
  · intro h
    rw [h]

/-! ## Lemmas: association lists, folds, and the metaclass loop -/

theorem assocSet_of_not_mem {α β : Type} [BEq α] [LawfulBEq α]
    (l : List (α × β)) (k : α) (v : β) (h : k ∉ l.map Prod.fst) :
    assocSet l k v = l ++ [(k, v)] := by
  induction l with
  | nil => rfl
  | cons p t ih =>
    simp only [List.map_cons, List.mem_cons, not_or] at h
    have hne : (p.1 == k) = false := by
      simp only [beq_eq_false_iff_ne, ne_eq]
      exact fun e => h.1 e.symm
    simp [assocSet, hne, ih h.2]

theorem lookup_assocSet_self {α β : Type} [BEq α] [LawfulBEq α]
    (l : List (α × β)) (k : α) (v : β) :
    (assocSet l k v).lookup k = some v := by
  induction l with
  | nil => simp [assocSet, List.lookup]
  | cons p t ih =>
    by_cases h : p.1 = k
    · simp [assocSet, h, List.lookup]
    · have hne : (p.1 == k) = false := by simp [h]
      have hne' : (k == p.1) = false := by
        simp only [beq_eq_false_iff_ne, ne_eq]
        exact fun e => h e.symm
      simp [assocSet, hne, List.lookup, hne', ih]

theorem lookup_assocSet_ne {α β : Type} [BEq α] [LawfulBEq α]
    (l : List (α × β)) (k k' : α) (v : β) (h : ¬ k' = k) :
    (assocSet l k v).lookup k' = l.lookup k' := by
  induction l with
  | nil =>
    have h2 : (k' == k) = false := by simp [h]
    simp [assocSet, List.lookup, h2]
  | cons p t ih =>
    by_cases hp : p.1 = k
    · have h1 : (p.1 == k) = true := by simp [hp]
      have h2 : (k' == k) = false := by simp [h]
      have h3 : (k' == p.1) = false := by
        have : ¬ k' = p.1 := fun e => h (e.trans hp)
        simp [this]
      simp [assocSet, h1, List.lookup, h2, h3]
    · have h1 : (p.1 == k) = false := by simp [hp]
      simp [assocSet, h1, List.lookup, ih]

theorem lookup_append_left {α β : Type} [BEq α] [LawfulBEq α]
    (l1 l2 : List (α × β)) (k : α) (h : k ∉ l1.map Prod.fst) :
    (l1 ++ l2).lookup k = l2.lookup k := by
  induction l1 with
  | nil => rfl
  | cons p t ih =>
    simp only [List.map_cons, List.mem_cons, not_or] at h
    have hne : (k == p.1) = false := by simp [h.1]
    simp [List.lookup, hne, ih h.2]

/-- Invariant preservation along a `foldlM` in the `Except` monad. -/
theorem foldlM_except_invariant {σ α : Type} (P : σ → Prop)
    (f : σ → α → Except PyErr σ) (l : List α) (s : σ) (h0 : P s)
    (hstep : ∀ t a, a ∈ l → P t → ∀ t', f t a = .ok t' → P t') :
    ∀ s', l.foldlM f s = .ok s' → P s' := by
  induction l generalizing s with
  | nil =>
    intro s' h
    simp only [List.foldlM_nil] at h
    have h2 : s = s' := Except.ok.inj h
    exact h2 ▸ h0
  | cons a t ih =>
    intro s' h
    rw [List.foldlM_cons] at h
    cases hf : f s a with
    | error e =>
      rw [hf] at h
      have h2 : (Except.error e : Except PyErr σ) = .ok s' := h
      exact Except.noConfusion h2
    | ok s1 =>
      rw [hf] at h
      have h2 : t.foldlM f s1 = .ok s' := h
      exact ih s1 (hstep s a (by simp) h0 s1 hf)
        (fun u b hb => hstep u b (by simp [hb])) s' h2

theorem keys_map_boundField (decls : List (String × Field)) :
    (decls.map boundField).map Prod.fst = decls.map Prod.fst := by
  induction decls with
  | nil => rfl
  | cons p t ih => simp [boundField, ih]

theorem lookup_map_boundField (decls : List (String × Field)) (k : String)
    (f : Field) (h : (decls.map boundField).lookup k = some f) :
    f.attr = some k := by
  induction decls with
  | nil => exact Option.noConfusion h
  | cons p t ih =>
    by_cases hk : k = p.1
    · have hb : (k == p.1) = true := by simp [hk]
      simp only [List.map_cons, List.lookup, boundField, hb] at h
      have h2 := Option.some.inj h
      rw [← h2, hk]
    · have hb : (k == p.1) = false := by simp [hk]
      simp only [List.map_cons, List.lookup, boundField, hb] at h
      exact ih h

theorem modelMetaLoop_no_key (decls : List (String × Field)) :
    ∀ (cls : ModelClass) (found : Bool),
    (∀ p ∈ decls, p.2.is_key = false) →
    modelMetaLoop decls cls found = .ok
      ({ cls with
          columns := cls.columns ++
            decls.map (fun p => p.2.column_name.getD p.1),
          fields := cls.fields ++ decls.map boundField }, found) := by
  induction decls with
  | nil =>
    intro cls found _
    simp [modelMetaLoop]
  | cons p t ih =>
    intro cls found h
    have hp : p.2.is_key = false := h p (by simp)
    have hstep : modelMetaLoop (p :: t) cls found =
        modelMetaLoop t
          { cls with
              columns := cls.columns ++ [p.2.column_name.getD p.1],
              fields := cls.fields ++ [boundField p] } found := by
      simp [modelMetaLoop, modelMetaStep, hp, boundField]
    rw [hstep, ih _ found (fun q hq => h q (List.mem_cons_of_mem p hq))]
    simp [List.append_assoc]

theorem modelMetaLoop_second_key (decls : List (String × Field)) :
    ∀ (cls : ModelClass),
    1 ≤ (decls.filter (fun p => p.2.is_key)).length →
    modelMetaLoop decls cls true = .error (.typeError
      ("Expected a single primary key Field" ++ " but found two.")) := by
  induction decls with
  | nil => intro cls h; simp at h
  | cons p t ih =>
    intro cls h
    cases hp : p.2.is_key with
    | true =>
      simp [modelMetaLoop, modelMetaStep, hp]
    | false =>
      simp only [List.filter_cons, hp] at h
      have hstep : modelMetaLoop (p :: t) cls true =
          modelMetaLoop t
            { cls with
                columns := cls.columns ++ [p.2.column_name.getD p.1],
                fields := cls.fields ++ [boundField p] } true := by
        simp [modelMetaLoop, modelMetaStep, hp, boundField]
      rw [hstep]
      exact ih _ (by simpa using h)

theorem modelMetaLoop_ok_of_one_key (decls : List (String × Field)) :
    ∀ (cls : ModelClass),
    (decls.filter (fun p => p.2.is_key)).length ≤ 1 →
    ∃ out, modelMetaLoop decls cls false = .ok out := by
  induction decls with
  | nil => intro cls _; exact ⟨_, rfl⟩
  | cons p t ih =>
    intro cls h
    cases hp : p.2.is_key with
    | true =>
      simp only [List.filter_cons, hp, if_true, List.length_cons] at h
      have ht : ∀ q ∈ t, q.2.is_key = false := by
        intro q hq
        by_contra hq2
        have hqt : q.2.is_key = true := by
          cases hqk : q.2.is_key
          · exact absurd hqk hq2
          · rfl
        have hmem : q ∈ t.filter (fun p => p.2.is_key) :=
          List.mem_filter.mpr ⟨hq, hqt⟩
        have := List.length_pos.mpr (List.ne_nil_of_mem hmem)
        omega
      have hstep : modelMetaLoop (p :: t) cls false =
          modelMetaLoop t
            { cls with
                columns := cls.columns ++ [p.2.column_name.getD p.1],
                primary_key := some (p.2.column_name.getD p.1),
                fields := cls.fields ++ [boundField p] } true := by
        simp [modelMetaLoop, modelMetaStep, hp, boundField]
      rw [hstep, modelMetaLoop_no_key t _ true ht]
      exact ⟨_, rfl⟩
    | false =>
      simp only [List.filter_cons, hp] at h
      have hstep : modelMetaLoop (p :: t) cls false =
          modelMetaLoop t
            { cls with
                columns := cls.columns ++ [p.2.column_name.getD p.1],
                fields := cls.fields ++ [boundField p] } false := by
        simp [modelMetaLoop, modelMetaStep, hp, boundField]
      rw [hstep]
      exact ih _ (by simpa using h)

theorem modelMetaLoop_two_keys (decls : List (String × Field)) :
    ∀ (cls : ModelClass),
    2 ≤ (decls.filter (fun p => p.2.is_key)).length →
    modelMetaLoop decls cls false = .error (.typeError
      ("Expected a single primary key Field" ++ " but found two.")) := by
  induction decls with
  | nil => intro cls h; simp at h
  | cons p t ih =>
    intro cls h
    cases hp : p.2.is_key with
    | true =>
      simp only [List.filter_cons, hp, if_true, List.length_cons] at h
      have hstep : modelMetaLoop (p :: t) cls false =
          modelMetaLoop t
            { cls with
                columns := cls.columns ++ [p.2.column_name.getD p.1],
                primary_key := some (p.2.column_name.getD p.1),
                fields := cls.fields ++ [boundField p] } true := by
        simp [modelMetaLoop, modelMetaStep, hp, boundField]
      rw [hstep]
      exact modelMetaLoop_second_key t _ (by simp at h ⊢; omega)
    | false =>
      simp only [List.filter_cons, hp] at h
      have hstep : modelMetaLoop (p :: t) cls false =
          modelMetaLoop t
            { cls with
                columns := cls.columns ++ [p.2.column_name.getD p.1],
                fields := cls.fields ++ [boundField p] } false := by
        simp [modelMetaLoop, modelMetaStep, hp, boundField]
      rw [hstep]
      exact ih _ (by simpa using h)

theorem modelMeta_no_key (name : String) (decls : List (String × Field))
    (h : ∀ p ∈ decls, p.2.is_key = false)
    (hattr : "_rowid_" ∉ decls.map Prod.fst) :
    modelMeta name decls = .ok
      { columns := "_rowid_" ::
          decls.map (fun p => p.2.column_name.getD p.1),
        tablename := name,
        primary_key := some "_rowid_",
        fields := decls.map boundField ++
          [("_rowid_", FieldInteger Option.none true false true false
            Option.none)] } := by
  unfold modelMeta
  rw [modelMetaLoop_no_key decls _ false h]
  have hkeys : "_rowid_" ∉ (decls.map boundField).map Prod.fst := by
    rw [keys_map_boundField]; exact hattr
  simp [assocSet_of_not_mem _ _ _ hkeys]

theorem some_beq_some {α : Type} [BEq α] (a b : α) :
    ((some a : Option α) == some b) = (a == b) := rfl

theorem except_bind_ok {α β : Type} (a : α) (f : α → Except PyErr β) :
    (Except.ok a >>= f) = f a := rfl

theorem except_bind_error {α β : Type} (e : PyErr)
    (f : α → Except PyErr β) :
    ((Except.error e : Except PyErr α) >>= f) = Except.error e := rfl

theorem lookup_append_match {α β : Type} [BEq α] (l1 l2 : List (α × β))
    (k : α) :
    (l1 ++ l2).lookup k =
      match l1.lookup k with
      | some v => some v
      | Option.none => l2.lookup k := by
  induction l1 with
  | nil => rfl
  | cons p t ih =>
    simp only [List.cons_append, List.lookup]
    cases k == p.1 <;> simp [ih]

theorem foldlM_except_append {σ α : Type} (f : σ → α → Except PyErr σ)
    (l1 l2 : List α) (s : σ) :
    (l1 ++ l2).foldlM f s =
      match l1.foldlM f s with
      | .error e => .error e
      | .ok s1 => l2.foldlM f s1 := by
  induction l1 generalizing s with
  | nil => rfl
  | cons a t ih =>
    simp only [List.cons_append, List.foldlM_cons]
    cases hf : f s a with
    | error e => simp [except_bind_error]
    | ok s1 => simp [except_bind_ok, ih]

theorem find?_unknown_none (cols keys : List String)
    (h : ∀ k ∈ keys, k ∈ cols) :
    keys.find? (fun k => !(cols.contains k)) = Option.none := by
  apply List.find?_eq_none.mpr
  intro k hk
  simp [List.elem_iff.mpr (h k hk), h k hk]

theorem storageRoundTrip_id (f : Field) (hk : f.kind ≠ FieldKind.datetime)
    (now : PyDateTime) (x : PyValue) (ft : Bool) :
    storageRoundTrip f now x ft = .ok x := by
  unfold storageRoundTrip Field.to_db_format Field.from_db_format
  cases hf : f.kind <;> simp_all

theorem storageRoundTrip_datetime (f : Field)
    (hk : f.kind = FieldKind.datetime) (now : PyDateTime) (d : PyDateTime)
    (ft : Bool) (hd : d.valid = true) (hy : 1900 ≤ d.year) :
    storageRoundTrip f now (.dt d) ft = .ok (.dt d) := by
  have hn : ¬ d.year < 1900 := by omega
  unfold storageRoundTrip Field.to_db_format strftimeDateTime
    Field.from_db_format
  rw [hk]
  simp [hn, parseDateTime_formatDateTime d hd, Except.map]

theorem storageRoundTrip_datetime_pre1900 (f : Field)
    (hk : f.kind = FieldKind.datetime) (now : PyDateTime) (d : PyDateTime)
    (ft : Bool) (hy : d.year < 1900) :
    storageRoundTrip f now (.dt d) ft = .error (.valueError
      ("year=" ++ toString d.year ++
        " is before 1900; the datetime strftime() methods require year" ++
        " >= 1900")) := by
  unfold storageRoundTrip Field.to_db_format strftimeDateTime
  rw [hk]
  simp [hy]

theorem validate_dt_kind (f : Field) (v : PyValue) (d : PyDateTime)
    (hkb : f.kind ≠ FieldKind.base)
    (hv : f.validate v = .ok (.dt d)) : f.kind = FieldKind.datetime := by
  cases hf : f.kind with
  | base => exact absurd hf hkb
  | datetime => rfl
  | integer =>
    exfalso
    cases v <;> simp only [Field.validate, hf] at hv <;>
      (try split at hv) <;> simp_all
  | decimal =>
    exfalso
    cases v <;> simp only [Field.validate, hf] at hv <;>
      (try split at hv) <;> simp_all
  | text =>
    exfalso
    cases v <;> simp only [Field.validate, hf] at hv <;>
      (try split at hv) <;> simp_all

theorem validate_canonical (f : Field) (v v' : PyValue)
    (hv : f.validate v = .ok v') (hc : canonicalFor f.kind v = true) :
    v' = v := by
  cases hf : f.kind with
  | base => simp [canonicalFor, hf] at hc
  | integer =>
    cases v <;> simp [canonicalFor, hf] at hc
    simp only [Field.validate, hf] at hv
    exact (Except.ok.inj hv).symm
  | decimal =>
    cases v <;> simp [canonicalFor, hf] at hc
    simp only [Field.validate, hf] at hv
    exact (Except.ok.inj hv).symm
  | text =>
    cases v <;> simp [canonicalFor, hf] at hc
    simp only [Field.validate, hf, pyStr] at hv
    exact (Except.ok.inj hv).symm
  | datetime =>
    cases v <;> simp [canonicalFor, hf] at hc
    simp only [Field.validate, hf] at hv
    exact (Except.ok.inj hv).symm

/-! ## The claims -/

/-- Claim C1, corrected.  For every supported field kind (Integer, Decimal,
Text, DateTime) and every value `v` accepted by that kind's `validate`
(`validate v = ok v'`), the storage round trip
`from_db_format(to_db_format(·, first_time, is_query=False))` reproduces the
validated value `v'` exactly — when `v` already is of the kind's canonical
in-memory type, `v' = v`, so the round trip reproduces `v` itself, a
DateTime exactly at microsecond precision — EXCEPT that for a DateTime whose
year is before 1900 the Python 2 `strftime` call in `to_db_format` raises
`ValueError` instead (the `FieldDateTime` default `datetime.min` included).
The claim as frozen fails twice: the round trip reproduces `validate(v)`,
not `v`, for accepted non-canonical inputs (see the counterexample), and
the DateTime leg raises rather than round-trips below year 1900. -/
theorem C1_roundtrip (f : Field) (now : PyDateTime) (v v' : PyValue)
    (first_time : Bool) (hkind : f.kind ≠ FieldKind.base)
    (hvalid : v.valid = true) (hv : f.validate v = .ok v') :
    ((∀ d, v' = .dt d → 1900 ≤ d.year) →
      storageRoundTrip f now v' first_time = .ok v' ∧
      (canonicalFor f.kind v = true → v' = v)) ∧
    (∀ d, v' = .dt d → d.year < 1900 →
      storageRoundTrip f now v' first_time = .error (.valueError
        ("year=" ++ toString d.year ++
          " is before 1900; the datetime strftime() methods require year" ++
          " >= 1900"))) := by
  by_cases hdt : f.kind = FieldKind.datetime
  · cases v with
    | dt d =>
      have hv' : v' = .dt d := by
        simp only [Field.validate, hdt] at hv
        exact (Except.ok.inj hv).symm
      subst hv'
      constructor
      · intro hy
        exact ⟨storageRoundTrip_datetime f hdt now d first_time
          (by simpa [PyValue.valid] using hvalid) (hy d rfl), fun _ => rfl⟩
      · intro d' hd' hlt
        have hd2 : d' = d := (PyValue.dt.inj hd').symm
        rw [hd2] at hlt ⊢
        exact storageRoundTrip_datetime_pre1900 f hdt now d first_time hlt
    | int n => simp [Field.validate, hdt] at hv
    | dec d => simp [Field.validate, hdt] at hv
    | str s => simp [Field.validate, hdt] at hv
    | none => simp [Field.validate, hdt] at hv
  · constructor
    · intro _
      exact ⟨storageRoundTrip_id f hdt now v' first_time,
        fun hc => validate_canonical f v v' hv hc⟩
    · intro d hd _
      rw [hd] at hv
      exact absurd (validate_dt_kind f v d hkind hv) hdt

/-- Witness for C1: a DateTime field round-trips the canonical value
`datetime(2000, 1, 2, 3, 4, 5, 6)` (year ≥ 1900). -/
theorem C1_roundtrip_witness :
    ((∀ d, (PyValue.dt ⟨2000, 1, 2, 3, 4, 5, 6⟩) = .dt d → 1900 ≤ d.year) →
      storageRoundTrip (FieldDateTime false false Option.none false false
        false Option.none) dtMin (.dt ⟨2000, 1, 2, 3, 4, 5, 6⟩) true =
        .ok (.dt ⟨2000, 1, 2, 3, 4, 5, 6⟩) ∧
      (canonicalFor (FieldDateTime false false Option.none false false
        false Option.none).kind (.dt ⟨2000, 1, 2, 3, 4, 5, 6⟩) = true →
        (PyValue.dt ⟨2000, 1, 2, 3, 4, 5, 6⟩) =
          (PyValue.dt ⟨2000, 1, 2, 3, 4, 5, 6⟩))) ∧
    (∀ d, (PyValue.dt ⟨2000, 1, 2, 3, 4, 5, 6⟩) = .dt d → d.year < 1900 →
      storageRoundTrip (FieldDateTime false false Option.none false false
        false Option.none) dtMin (.dt ⟨2000, 1, 2, 3, 4, 5, 6⟩) true =
        .error (.valueError
          ("year=" ++ toString d.year ++
            " is before 1900; the datetime strftime() methods require year" ++
            " >= 1900"))) :=
  C1_roundtrip (FieldDateTime false false Option.none false false false
      Option.none) dtMin (.dt ⟨2000, 1, 2, 3, 4, 5, 6⟩)
    (.dt ⟨2000, 1, 2, 3, 4, 5, 6⟩) true (by decide) (by decide) (by rfl)

/-- Counterexample to C1 as frozen: `FieldText.validate` accepts the integer
`3` (Python `"%s" % 3`), but the round trip then yields the string `"3"`, not
the original value `3`. -/
theorem C1_counterexample :
    (FieldText Option.none false false Option.none false
      Option.none).validate (.int 3) = .ok (.str "3") ∧
    storageRoundTrip (FieldText Option.none false false Option.none false
      Option.none) dtMin (.str "3") true = .ok (.str "3") ∧
    PyValue.str "3" ≠ PyValue.int 3 := by
  refine ⟨?_, rfl, by decide⟩
  rfl

/-- Claim C2, code bug.  `_get_column_statement` follows the documented
priority order, but its `DEFAULT` branch runs `statement += default` when the
converted default is a number, concatenating a `str` with an `int` — a
`TypeError` — instead of rendering the bare number the docstring and spec
intend.  Since `FieldInteger` defaults to `0`, every plain integer column
(no key/not-null/unique/check flag) crashes DDL generation, as evaluated
here. -/
theorem C2_numeric_default_raises :
    (FieldInteger (some "x") false false true false
      Option.none).get_column_statement =
      .error (.typeError "cannot concatenate 'str' and 'int' objects") := rfl

/-- Claim C3.  For a where map and a non-empty data map over known columns,
the generated UPDATE is
`UPDATE <table> SET <col> = ? AND <col> = ? ... WHERE <cond>` — the SET
entries joined by `" AND "`, not by commas — and the parameter list is the
data values in data-map order followed by the where values in where-map order
(the always-true sentinel `1 = ?` / value `1` that the builder appends to the
where dict included). -/
theorem C3_update (cls : ModelClass) (w d : List (String × PyValue))
    (hd : d ≠ [])
    (hw : ∀ k ∈ w.map Prod.fst, k ∈ cls.columns)
    (hdk : ∀ k ∈ d.map Prod.fst, k ∈ cls.columns)
    (h1 : "1" ∉ w.map Prod.fst) :
    generate_query cls "UPDATE" w d = .ok
      ("UPDATE " ++ cls.tablename ++ " SET " ++
        String.intercalate " AND " (d.map (fun p => p.1 ++ " = ?")) ++
        " WHERE " ++
        String.intercalate " AND "
          ((w ++ [("1", PyValue.int 1)]).map (fun p => p.1 ++ " = ?")),
      d.map Prod.snd ++ (w ++ [("1", PyValue.int 1)]).map Prod.snd) := by
  have hall : ∀ k ∈ w.map Prod.fst ++ d.map Prod.fst, k ∈ cls.columns := by
    intro k hk
    rcases List.mem_append.mp hk with h | h
    exacts [hw k h, hdk k h]
  unfold generate_query
  simp only [find?_unknown_none cls.columns _ hall,
    assocSet_of_not_mem w "1" (.int 1) h1,
    show pyUpper "UPDATE" = "UPDATE" from rfl]
  simp

/-- Witness for C3 on a concrete model and maps. -/
theorem C3_update_witness :
    generate_query ⟨["id", "text"], "Note", some "id", []⟩ "UPDATE"
      [("id", PyValue.int 7)] [("text", PyValue.str "world")] = .ok
      ("UPDATE " ++ "Note" ++ " SET " ++
        String.intercalate " AND "
          ([("text", PyValue.str "world")].map (fun p => p.1 ++ " = ?")) ++
        " WHERE " ++
        String.intercalate " AND "
          (([("id", PyValue.int 7)] ++ [("1", PyValue.int 1)]).map
            (fun p => p.1 ++ " = ?")),
      [("text", PyValue.str "world")].map Prod.snd ++
        ([("id", PyValue.int 7)] ++ [("1", PyValue.int 1)]).map Prod.snd) :=
  C3_update ⟨["id", "text"], "Note", some "id", []⟩
    [("id", PyValue.int 7)] [("text", PyValue.str "world")]
    (by decide) (by decide) (by decide) (by decide)

/-- Claim C7.  Every key of the where map and of the data map is checked
against the schema's columns before any SQL is produced: whenever some key is
unknown, `_generate_query` fails — for every operation token — with a
`TypeError` naming an offending key and listing all valid columns. -/
theorem C7_unknown_column (cls : ModelClass) (query : String)
    (w d : List (String × PyValue))
    (h : ∃ k ∈ w.map Prod.fst ++ d.map Prod.fst, k ∉ cls.columns) :
    ∃ k0, (k0 ∈ w.map Prod.fst ∨ k0 ∈ d.map Prod.fst) ∧
      k0 ∉ cls.columns ∧
      generate_query cls query w d =
        .error (.typeError (unknownColumnMsg k0 cls.columns)) := by
  have hsome : ((w.map Prod.fst ++ d.map Prod.fst).find?
      (fun k => !(cls.columns.contains k))).isSome := by
    obtain ⟨k, hk, hnk⟩ := h
    apply List.find?_isSome.mpr
    refine ⟨k, hk, ?_⟩
    simp [List.elem_iff, hnk]
  obtain ⟨k0, hfind⟩ := Option.isSome_iff_exists.mp hsome
  have hmem := List.mem_of_find?_eq_some hfind
  have hpred := List.find?_some hfind
  have hpred' : k0 ∉ cls.columns := by simpa using hpred
  refine ⟨k0, List.mem_append.mp hmem, hpred', ?_⟩
  unfold generate_query
  rw [hfind]

/-- Witness for C7: an unknown column `bogus` in the where map. -/
theorem C7_unknown_column_witness :
    ∃ k0, (k0 ∈ ([("bogus", PyValue.int 0)].map Prod.fst) ∨
      k0 ∈ ([] : List (String × PyValue)).map Prod.fst) ∧
      k0 ∉ (⟨["id", "text"], "Note", some "id", []⟩ : ModelClass).columns ∧
      generate_query ⟨["id", "text"], "Note", some "id", []⟩ "SELECT"
        [("bogus", PyValue.int 0)] [] =
        .error (.typeError (unknownColumnMsg "bogus" ["id", "text"])) := by
  obtain ⟨k0, h1, h2, h3⟩ := C7_unknown_column
    ⟨["id", "text"], "Note", some "id", []⟩ "SELECT"
    [("bogus", PyValue.int 0)] [] ⟨"bogus", by decide, by decide⟩
  have hk : k0 = "bogus" := by
    rcases h1 with h | h
    · simpa using h
    · simp at h
  rw [hk] at h1 h2 h3
  exact ⟨"bogus", h1, h2, h3⟩

/-- Claim C8.  When the executed SELECT yields no rows, `get()` hydrates
`cursor.fetchone() = None` to the none-value and `filter()` returns the empty
sequence; neither raises in the no-match case. -/
theorem C8_no_match (cls : ModelClass) (w : List (String × PyValue))
    (hw : ∀ k ∈ w.map Prod.fst, k ∈ cls.columns) :
    get cls Option.none w Option.none = .ok Option.none ∧
    filterModel cls w [] = .ok [] := by
  have hall : ∀ k ∈ w.map Prod.fst ++
      (([] : List (String × PyValue)).map Prod.fst), k ∈ cls.columns := by
    simpa using hw
  constructor
  · unfold get generate_query
    simp only [find?_unknown_none cls.columns _ hall,
      show pyUpper "SELECT" = "SELECT" from rfl]
    simp [result_to_model]
  · unfold filterModel generate_query
    simp only [find?_unknown_none cls.columns _ hall,
      show pyUpper "SELECT" = "SELECT" from rfl]
    simp
    rfl

/-- Witness for C8 on a concrete model. -/
theorem C8_no_match_witness :
    get ⟨["id", "text"], "Note", some "id", []⟩ Option.none
      [("id", PyValue.int 1)] Option.none = .ok Option.none ∧
    filterModel ⟨["id", "text"], "Note", some "id", []⟩
      [("id", PyValue.int 1)] [] = .ok [] :=
  C8_no_match ⟨["id", "text"], "Note", some "id", []⟩
    [("id", PyValue.int 1)] (by decide)

/-- Claim C4.  A record type declared with no `is_key` field receives exactly
one synthesized integer primary-key column named `"_rowid_"` (the storage
engine's native row identifier): that column is prepended so it is first in
the column list, appears exactly once, is recorded as the class's primary
key, and the synthesized field is a `FieldInteger(is_key=True)` — the only
key field of the class. -/
theorem C4_synthesized_rowid (name : String) (decls : List (String × Field))
    (hnk : ∀ p ∈ decls, p.2.is_key = false)
    (hattr : "_rowid_" ∉ decls.map Prod.fst)
    (hcol : ∀ p ∈ decls, p.2.column_name.getD p.1 ≠ "_rowid_") :
    ∃ cls, modelMeta name decls = .ok cls ∧
      cls.columns =
        "_rowid_" :: decls.map (fun p => p.2.column_name.getD p.1) ∧
      cls.primary_key = some "_rowid_" ∧
      cls.columns.count "_rowid_" = 1 ∧
      cls.fields.lookup "_rowid_" =
        some (FieldInteger Option.none true false true false Option.none) ∧
      (FieldInteger Option.none true false true false
        Option.none).is_key = true ∧
      (FieldInteger Option.none true false true false
        Option.none).column_type = "INTEGER" ∧
      (cls.fields.filter (fun p => p.2.is_key)).length = 1 := by
  refine ⟨_, modelMeta_no_key name decls hnk hattr, rfl, rfl, ?_, ?_, rfl,
    rfl, ?_⟩
  · have hnotmem :
        "_rowid_" ∉ decls.map (fun p => p.2.column_name.getD p.1) := by
      intro hm
      obtain ⟨p, hp, he⟩ := List.mem_map.mp hm
      exact hcol p hp he
    simp [List.count_cons, List.count_eq_zero.mpr hnotmem]
  · rw [lookup_append_left _ _ _
      (by rw [keys_map_boundField]; exact hattr)]
    simp [List.lookup]
  · have hfil :
        (decls.map boundField).filter (fun p => p.2.is_key) = [] := by
      rw [List.filter_eq_nil_iff]
      intro a ha
      obtain ⟨p, hp, he⟩ := List.mem_map.mp ha
      rw [← he]
      simp [boundField, hnk p hp]
    simp [List.filter_append, hfil, List.filter, FieldInteger]

/-- Witness for C4 on a one-field declaration. -/
theorem C4_synthesized_rowid_witness :
    ∃ cls, modelMeta "T"
        [("a", FieldInteger Option.none false false true false
          Option.none)] = .ok cls ∧
      cls.columns = "_rowid_" ::
        [("a", FieldInteger Option.none false false true false
          Option.none)].map (fun p => p.2.column_name.getD p.1) ∧
      cls.primary_key = some "_rowid_" ∧
      cls.columns.count "_rowid_" = 1 ∧
      cls.fields.lookup "_rowid_" =
        some (FieldInteger Option.none true false true false Option.none) ∧
      (FieldInteger Option.none true false true false
        Option.none).is_key = true ∧
      (FieldInteger Option.none true false true false
        Option.none).column_type = "INTEGER" ∧
      (cls.fields.filter (fun p => p.2.is_key)).length = 1 :=
  C4_synthesized_rowid "T"
    [("a", FieldInteger Option.none false false true false Option.none)]
    (by decide) (by decide) (by decide)

/-- Claim C5.  Declaring a record type with two `is_key` fields fails at
type-declaration time with the definition error
`"Expected a single primary key Field but found two."`; declaring a type with
exactly one `is_key` field succeeds. -/
theorem C5_single_primary_key (name : String)
    (decls : List (String × Field)) :
    (2 ≤ (decls.filter (fun p => p.2.is_key)).length →
      modelMeta name decls = .error (.typeError
        ("Expected a single primary key Field" ++ " but found two."))) ∧
    ((decls.filter (fun p => p.2.is_key)).length = 1 →
      ∃ cls, modelMeta name decls = .ok cls) := by
  constructor
  · intro h
    unfold modelMeta
    rw [modelMetaLoop_two_keys decls _ h]
  · intro h
    unfold modelMeta
    obtain ⟨⟨cls, found⟩, hout⟩ :=
      modelMetaLoop_ok_of_one_key decls
        { columns := [], tablename := name, primary_key := Option.none,
          fields := [] } (le_of_eq h)
    rw [hout]
    by_cases hpk : cls.primary_key = Option.none
    · refine ⟨ModelClass.mk ("_rowid_" :: cls.columns) cls.tablename
        (some "_rowid_") (assocSet cls.fields "_rowid_"
          (FieldInteger Option.none true false true false Option.none)), ?_⟩
      simp [hpk]
    · exact ⟨cls, by simp [hpk]⟩

/-- Claim C6.  `FieldDateTime.to_db_format(value, first_time, is_query)`
replaces the value with the current timestamp exactly when `is_query` is true
and either `auto_now` is set, or `auto_now_add` is set and `first_time` is
true; in every other case the supplied value is formatted unchanged (and
`validate` never stamps).  In particular a field with `auto_now_add = true`
is stamped on a first-time write and formats the stored value unchanged on
later writes.  Stated over datetimes with year ≥ 1900, the domain on which
the Python 2 `strftime` call formats rather than raises `ValueError`: the
clock value `now` always satisfies this, and a value stamped by a first save
does too. -/
theorem C6_auto_now_stamp (an aadd : Bool) (cn : Option String)
    (key uniq chk : Bool) (dflt : Option PyValue) (now v : PyDateTime)
    (first_time is_query : Bool) (hnow : now.valid = true)
    (hv : v.valid = true) (hne : now ≠ v)
    (hnowy : 1900 ≤ now.year) (hvy : 1900 ≤ v.year) :
    ((FieldDateTime an aadd cn key uniq chk dflt).to_db_format now (.dt v)
        first_time is_query = .ok (.str (formatDateTime now)) ↔
      is_query = true ∧ (an = true ∨ (first_time = true ∧ aadd = true))) ∧
    ((FieldDateTime an aadd cn key uniq chk dflt).to_db_format now (.dt v)
        first_time is_query = .ok (.str (formatDateTime v)) ↔
      ¬(is_query = true ∧ (an = true ∨ (first_time = true ∧ aadd = true)))) ∧
    ((FieldDateTime an aadd cn key uniq chk dflt).validate (.dt v) =
      .ok (.dt v)) ∧
    (an = false → aadd = true →
      (FieldDateTime an aadd cn key uniq chk dflt).to_db_format now (.dt v)
        true true = .ok (.str (formatDateTime now)) ∧
      (FieldDateTime an aadd cn key uniq chk dflt).to_db_format now (.dt v)
        false true = .ok (.str (formatDateTime v))) := by
  have hfne : formatDateTime now ≠ formatDateTime v :=
    fun he => hne ((formatDateTime_inj now v hnow hv).mp he)
  have hn1 : ¬ now.year < 1900 := by omega
  have hv1 : ¬ v.year < 1900 := by omega
  refine ⟨?_, ?_, rfl, ?_⟩ <;>
    cases is_query <;> cases an <;> cases first_time <;> cases aadd <;>
      simp [Field.to_db_format, FieldDateTime, strftimeDateTime, hn1, hv1,
        hfne, Ne.symm hfne]

/-- Witness for C6: an `auto_now_add` field is stamped on the first write and
left alone on later writes, at a stored value from 1999. -/
theorem C6_auto_now_stamp_witness :
    ((FieldDateTime false true Option.none false false false
        Option.none).to_db_format ⟨2020, 1, 2, 3, 4, 5, 6⟩
        (.dt ⟨1999, 12, 31, 23, 59, 58, 7⟩)
        true true = .ok (.str (formatDateTime ⟨2020, 1, 2, 3, 4, 5, 6⟩)) ↔
      true = true ∧ (false = true ∨ (true = true ∧ true = true))) ∧
    ((FieldDateTime false true Option.none false false false
        Option.none).to_db_format ⟨2020, 1, 2, 3, 4, 5, 6⟩
        (.dt ⟨1999, 12, 31, 23, 59, 58, 7⟩)
        true true =
          .ok (.str (formatDateTime ⟨1999, 12, 31, 23, 59, 58, 7⟩)) ↔
      ¬(true = true ∧ (false = true ∨ (true = true ∧ true = true)))) ∧
    ((FieldDateTime false true Option.none false false false
        Option.none).validate (.dt ⟨1999, 12, 31, 23, 59, 58, 7⟩) =
        .ok (.dt ⟨1999, 12, 31, 23, 59, 58, 7⟩)) ∧
    (false = false → true = true →
      (FieldDateTime false true Option.none false false false
        Option.none).to_db_format ⟨2020, 1, 2, 3, 4, 5, 6⟩
        (.dt ⟨1999, 12, 31, 23, 59, 58, 7⟩)
        true true = .ok (.str (formatDateTime ⟨2020, 1, 2, 3, 4, 5, 6⟩)) ∧
      (FieldDateTime false true Option.none false false false
        Option.none).to_db_format ⟨2020, 1, 2, 3, 4, 5, 6⟩
        (.dt ⟨1999, 12, 31, 23, 59, 58, 7⟩)
        false true =
          .ok (.str (formatDateTime ⟨1999, 12, 31, 23, 59, 58, 7⟩))) :=
  C6_auto_now_stamp false true Option.none false false false Option.none
    ⟨2020, 1, 2, 3, 4, 5, 6⟩ ⟨1999, 12, 31, 23, 59, 58, 7⟩ true true
    (by decide) (by decide) (by decide) (by decide) (by decide)

/-- Claim C9.  `save()` and `get_create_statement()` locate the primary-key
field by its COLUMN name, not by its attribute name: on the declaration
`key = FieldInteger(column_name=c, is_key=True); txt = FieldText()`, the
stored primary key is the column name `c`, the class-dictionary lookup
succeeds exactly when `c` equals the attribute name `"key"`, and
* when `c = "key"`, `get_create_statement()` finds the declared field and a
  first `save()` writes the engine row id into the declared attribute;
* when `c ≠ "key"` (a genuine override), `cls.__dict__[c]` finds no field, so
  `get_create_statement()` dies with a `KeyError`, and `save()`'s
  `setattr(self, c, lastrowid)` creates a fresh plain attribute `c` while the
  declared `key` attribute keeps its default `0`. -/
theorem C9_pk_located_by_column_name (c : String) (rid : Int)
    (hct : c ≠ "txt") (hcr : c ≠ "_rowid_") :
    ∃ cls, modelMeta "T" (declsOverride c) = .ok cls ∧
      cls.primary_key = some c ∧
      ((cls.fields.lookup c).isSome ↔ c = "key") ∧
      (c = "key" →
        get_create_statement cls = .ok
          "CREATE TABLE T (key INTEGER PRIMARY KEY, txt TEXT DEFAULT None)" ∧
        ∃ inst out q, model_init cls [] = .ok inst ∧
          save cls dtMin inst rid = .ok (out, q) ∧
          out.dict.lookup (some "key") = some (.int rid)) ∧
      (c ≠ "key" →
        cls.fields.lookup c = Option.none ∧
        get_create_statement cls = .error (.keyError c) ∧
        ∃ inst out q, model_init cls [] = .ok inst ∧
          save cls dtMin inst rid = .ok (out, q) ∧
          out.dict.lookup (some c) = some (.int rid) ∧
          out.dict.lookup (some "key") = some (.int 0)) := by
  refine ⟨_, rfl, rfl, ?_, ?_, ?_⟩
  · by_cases hc : c = "key"
    · subst hc
      simp [List.lookup]
    · have h1 : (c == "key") = false := by simp [hc]
      have h2 : (c == "txt") = false := by simp [hct]
      simp [List.lookup, h1, h2, hc]
  · intro hc
    subst hc
    exact ⟨rfl, _, _, _, rfl, rfl, rfl⟩
  · intro hc
    have h1 : (c == "key") = false := by simp [hc]
    have h2 : (c == "txt") = false := by simp [hct]
    have h1s : ("key" == c) = false := by simp [Ne.symm hc]
    have h2s : ("txt" == c) = false := by simp [Ne.symm hct]
    refine ⟨?_, ?_, ⟨[(some "key", PyValue.int 0),
        (some "txt", PyValue.str "None")], false⟩,
      ⟨[(some "key", PyValue.int 0), (some "txt", PyValue.str "None"),
        (some c, PyValue.int rid)], true⟩,
      ("INSERT INTO " ++ "T" ++ " (" ++ "txt" ++ ") VALUES (" ++ "?" ++ ")",
        [PyValue.str "None"]), rfl, ?_, ?_, ?_⟩
    · simp [List.lookup, h1, h2]
    · simp [get_create_statement, hcr, FieldInteger, FieldText,
        List.lookup, some_beq_some, h1, h2]
    · simp [save, saveData, generate_query, pygetattr, pysetattr,
        Field.to_db_format, Field.validate, FieldInteger, FieldText,
        List.lookup, List.find?, assocSet, some_beq_some, except_bind_ok,
        h1, h2, h1s, h2s, Ne.symm hc, Ne.symm hct,
        show pyUpper "INSERT" = "INSERT" from rfl]
      try rfl
    · simp [List.lookup, some_beq_some, h1, h2]
    · simp [List.lookup, some_beq_some, h1, h2]

/-- Witness for C9 at the override column name `"kid"`. -/
theorem C9_pk_located_by_column_name_witness :
    ∃ cls, modelMeta "T" (declsOverride "kid") = .ok cls ∧
      cls.primary_key = some "kid" ∧
      ((cls.fields.lookup "kid").isSome ↔ "kid" = "key") ∧
      ("kid" = "key" →
        get_create_statement cls = .ok
          "CREATE TABLE T (key INTEGER PRIMARY KEY, txt TEXT DEFAULT None)" ∧
        ∃ inst out q, model_init cls [] = .ok inst ∧
          save cls dtMin inst 42 = .ok (out, q) ∧
          out.dict.lookup (some "key") = some (.int 42)) ∧
      ("kid" ≠ "key" →
        cls.fields.lookup "kid" = Option.none ∧
        get_create_statement cls = .error (.keyError "kid") ∧
        ∃ inst out q, model_init cls [] = .ok inst ∧
          save cls dtMin inst 42 = .ok (out, q) ∧
          out.dict.lookup (some "kid") = some (.int 42) ∧
          out.dict.lookup (some "key") = some (.int 0)) :=
  C9_pk_located_by_column_name "kid" 42 (by decide) (by decide)

theorem rowidClass_lookup_rowid (name : String)
    (decls : List (String × Field))
    (hattr : "_rowid_" ∉ decls.map Prod.fst) :
    (rowidClass name decls).fields.lookup "_rowid_" =
      some (FieldInteger Option.none true false true false Option.none) := by
  unfold rowidClass
  rw [lookup_append_left _ _ _ (by rw [keys_map_boundField]; exact hattr)]
  simp [List.lookup]

theorem rowidClass_lookup_attr (name : String)
    (decls : List (String × Field)) (k : String) (f : Field)
    (hk : k ≠ "_rowid_")
    (h : (rowidClass name decls).fields.lookup k = some f) :
    f.attr = some k := by
  unfold rowidClass at h
  rw [lookup_append_match] at h
  cases hb : (decls.map boundField).lookup k with
  | some g =>
    rw [hb] at h
    have hg := Option.some.inj h
    rw [← hg]
    exact lookup_map_boundField decls k g hb
  | none =>
    rw [hb] at h
    have hkb : (k == "_rowid_") = false := by simp [hk]
    simp [List.lookup, hkb] at h

theorem rowidClass_setattr_none_slot (name : String)
    (decls : List (String × Field)) (out : Instance) (k : String)
    (v : PyValue) (out' : Instance) (hk : k ≠ "_rowid_")
    (h : pysetattr (rowidClass name decls) out k v = .ok out') :
    out'.dict.lookup Option.none = out.dict.lookup Option.none := by
  unfold pysetattr at h
  split at h
  case h_1 f hl =>
    have hattr := rowidClass_lookup_attr name decls k f hk hl
    split at h
    case h_1 => exact Except.noConfusion h
    case h_2 v' hval =>
      have h2 := Except.ok.inj h
      have h3 : out'.dict = assocSet out.dict f.attr v' := by rw [← h2]
      rw [h3, hattr]
      exact lookup_assocSet_ne out.dict (some k) Option.none v' (by simp)
  case h_2 hl =>
    have h2 := Except.ok.inj h
    have h3 : out'.dict = assocSet out.dict (some k) v := by rw [← h2]
    rw [h3]
    exact lookup_assocSet_ne out.dict (some k) Option.none v (by simp)

theorem rowidClass_init_none_slot (name : String)
    (decls : List (String × Field))
    (hattr : "_rowid_" ∉ decls.map Prod.fst) (inst : Instance)
    (h : model_init (rowidClass name decls) [] = .ok inst) :
    inst.dict.lookup Option.none = some (PyValue.int 0) := by
  unfold model_init at h
  rw [show (rowidClass name decls).fields =
    decls.map boundField ++
      [("_rowid_", FieldInteger Option.none true false true false
        Option.none)] from rfl] at h
  rw [foldlM_except_append] at h
  cases hmid : (decls.map boundField).foldlM
      (fun inst p =>
        pysetattr (rowidClass name decls) inst p.1
          ((([] : List (String × PyValue)).lookup p.1).getD p.2.default))
      { dict := [], saved := false } with
  | error e => rw [hmid] at h; exact Except.noConfusion h
  | ok mid =>
    rw [hmid] at h
    simp only [List.foldlM_cons, List.foldlM_nil] at h
    have hstep : pysetattr (rowidClass name decls) mid "_rowid_"
        ((([] : List (String × PyValue)).lookup "_rowid_").getD
          (FieldInteger Option.none true false true false
            Option.none).default) =
        .ok ⟨assocSet mid.dict Option.none (PyValue.int 0), mid.saved⟩ := by
      simp [pysetattr, rowidClass_lookup_rowid name decls hattr,
        Field.validate, FieldInteger, List.lookup]
    rw [hstep] at h
    simp only [except_bind_ok] at h
    have h2 : (⟨assocSet mid.dict Option.none (PyValue.int 0), mid.saved⟩ :
        Instance) = inst := Except.ok.inj h
    rw [← h2]
    exact lookup_assocSet_self mid.dict Option.none (PyValue.int 0)

theorem rowidClass_hydrate_none_slot (name : String)
    (decls : List (String × Field))
    (hattr : "_rowid_" ∉ decls.map Prod.fst)
    (row : List PyValue) (out : Instance)
    (h : result_to_model (rowidClass name decls) (some row) =
      .ok (some out)) :
    out.dict.lookup Option.none = some (PyValue.int 0) := by
  unfold result_to_model at h
  cases hinit : model_init (rowidClass name decls) [] with
  | error e => rw [hinit] at h; exact Except.noConfusion h
  | ok out0 =>
    rw [hinit] at h
    dsimp only at h
    split at h
    case h_1 e hfold => exact Except.noConfusion h
    case h_2 out1 hfold =>
      have hout : out1 = out := Option.some.inj (Except.ok.inj h)
      rw [← hout]
      refine foldlM_except_invariant
        (fun (i : Instance) =>
          i.dict.lookup Option.none = some (PyValue.int 0))
        _ _ _ ?_ ?_ out1 hfold
      · exact rowidClass_init_none_slot name decls hattr out0 hinit
      · intro t a _ hPt t' ht'
        refine foldlM_except_invariant
          (fun (i : Instance) =>
            i.dict.lookup Option.none = some (PyValue.int 0))
          _ _ t hPt ?_ t' ht'
        intro u q hq hPu u' hu'
        by_cases hcond : q.2.column_name = some a.2
        · rw [if_pos hcond] at hu'
          have hkq : q.1 ≠ "_rowid_" := by
            rcases List.mem_append.mp hq with hmem | hmem
            · intro he
              apply hattr
              rw [← keys_map_boundField decls, ← he]
              exact List.mem_map_of_mem Prod.fst hmem
            · have hq2 : q = ("_rowid_", FieldInteger Option.none true false
                  true false Option.none) := by simpa using hmem
              rw [hq2] at hcond
              exact Option.noConfusion hcond
          cases hraw : row.get? a.1 with
          | none => rw [hraw] at hu'; exact Except.noConfusion hu'
          | some raw =>
            rw [hraw] at hu'
            dsimp only at hu'
            cases hdb : q.2.from_db_format raw with
            | error e => rw [hdb] at hu'; exact Except.noConfusion hu'
            | ok v =>
              rw [hdb] at hu'
              dsimp only at hu'
              rw [rowidClass_setattr_none_slot name decls u q.1 v u'
                hkq hu']
              exact hPu
        · rw [if_neg hcond] at hu'
          have h2 := Except.ok.inj hu'
          rw [← h2]
          exact hPu

/-- Claim C10.  For a record type with a synthesized row-id primary key, the
synthesized `FieldInteger` is created after the attribute-binding loop, so
its `column_name` (and `attr`) remain unset; result hydration assigns a row
value only to fields whose `column_name` equals the schema column, so the
row-id value of a fetched row is never assigned to any field, and every
instance returned by `get()` or `filter()` keeps the key attribute at the
field's default `0` instead of the actual row id. -/
theorem C10_rowid_never_hydrated (name : String)
    (decls : List (String × Field))
    (hnk : ∀ p ∈ decls, p.2.is_key = false)
    (hattr : "_rowid_" ∉ decls.map Prod.fst) :
    ∃ cls, modelMeta name decls = .ok cls ∧
      cls.fields.lookup "_rowid_" =
        some (FieldInteger Option.none true false true false Option.none) ∧
      (FieldInteger Option.none true false true false
        Option.none).column_name = Option.none ∧
      (FieldInteger Option.none true false true false
        Option.none).attr = Option.none ∧
      (∀ row out, result_to_model cls (some row) = .ok (some out) →
        pygetattr cls out "_rowid_" = .ok (.int 0)) ∧
      (∀ idArg w fetched out, get cls idArg w fetched = .ok (some out) →
        pygetattr cls out "_rowid_" = .ok (.int 0)) ∧
      (∀ w rows outs, filterModel cls w rows = .ok outs →
        ∀ out ∈ outs, pygetattr cls out "_rowid_" = .ok (.int 0)) := by
  have hmain : ∀ row out,
      result_to_model (rowidClass name decls) (some row) = .ok (some out) →
      pygetattr (rowidClass name decls) out "_rowid_" = .ok (.int 0) := by
    intro row out h
    have hslot := rowidClass_hydrate_none_slot name decls hattr row out h
    unfold pygetattr
    rw [rowidClass_lookup_rowid name decls hattr]
    dsimp only
    rw [show (FieldInteger Option.none true false true false
      Option.none).attr = Option.none from rfl, hslot]
  refine ⟨rowidClass name decls, modelMeta_no_key name decls hnk hattr,
    rowidClass_lookup_rowid name decls hattr, rfl, rfl, hmain, ?_, ?_⟩
  · intro idArg w fetched out h
    unfold get at h
    dsimp only at h
    split at h
    case h_1 => exact Except.noConfusion h
    case h_2 =>
      cases fetched with
      | none =>
        exact Option.noConfusion (Except.ok.inj h)
      | some row => exact hmain row out h
  · intro w rows outs h
    unfold filterModel at h
    split at h
    case h_1 => exact Except.noConfusion h
    case h_2 =>
      refine foldlM_except_invariant
        (fun (acc : List Instance) => ∀ o ∈ acc,
          pygetattr (rowidClass name decls) o "_rowid_" = .ok (.int 0))
        _ _ [] ?_ ?_ outs h
      · intro o ho
        exact absurd ho (List.not_mem_nil o)
      · intro acc row _ hP acc' hstep
        cases hr : result_to_model (rowidClass name decls) (some row) with
        | error e => rw [hr] at hstep; exact Except.noConfusion hstep
        | ok r =>
          rw [hr] at hstep
          dsimp only at hstep
          have h2 := Except.ok.inj hstep
          rw [← h2]
          intro o ho
          rcases List.mem_append.mp ho with hin | hin
          · exact hP o hin
          · cases r with
            | none => simp at hin
            | some o2 =>
              have ho2 : o = o2 := by
                simpa [Option.toList] using hin
              rw [ho2]
              exact hmain row o2 hr

/-- Witness for C10 on a one-field declaration. -/
theorem C10_rowid_never_hydrated_witness :
    ∃ cls, modelMeta "T"
        [("a", FieldInteger Option.none false false true false
          Option.none)] = .ok cls ∧
      cls.fields.lookup "_rowid_" =
        some (FieldInteger Option.none true false true false Option.none) ∧
      (FieldInteger Option.none true false true false
        Option.none).column_name = Option.none ∧
      (FieldInteger Option.none true false true false
        Option.none).attr = Option.none ∧
      (∀ row out, result_to_model cls (some row) = .ok (some out) →
        pygetattr cls out "_rowid_" = .ok (.int 0)) ∧
      (∀ idArg w fetched out, get cls idArg w fetched = .ok (some out) →
        pygetattr cls out "_rowid_" = .ok (.int 0)) ∧
      (∀ w rows outs, filterModel cls w rows = .ok outs →
        ∀ out ∈ outs, pygetattr cls out "_rowid_" = .ok (.int 0)) :=
  C10_rowid_never_hydrated "T"
    [("a", FieldInteger Option.none false false true false Option.none)]
    (by decide) (by decide)

end Litesimple
